import Mathlib

/-!
Shallow embedding of the gdbt stencil-resolution and resource-lifecycle core
(`src/gdbt/stencil/stencil.py` and `src/gdbt/resource/resource.py`).

Python dictionaries are modelled as association lists with Python insertion
semantics (`dictSet`, `dictMerge`, `dictPop`, `dictGet`); Python values that
flow through the engine are modelled by `PyVal`; exceptions are modelled with
`Except`. The MD5 hash used by `format_uid` (`hashlib.md5`) is implemented
executably below and checked against the standard test vectors.
-/

set_option maxRecDepth 4000

namespace Gdbt

/-! ## Python dictionary model -/

/-- Python `d[k] = v`: if the key is present, the value is replaced in place
(keeping the key's position); otherwise the pair is appended at the end. -/
def dictSet {V : Type} (d : List (String × V)) (k : String) (v : V) :
    List (String × V) :=
  if d.any (fun p => p.1 = k) then
    d.map (fun p => if p.1 = k then (k, v) else p)
  else
    d ++ [(k, v)]

/-- Python `{**a, **b}` / `a.update(b)`: entries of `b` are set into `a` in
order, overriding same-named keys. -/
def dictMerge {V : Type} (a b : List (String × V)) : List (String × V) :=
  b.foldl (fun d p => dictSet d p.1 p.2) a

/-- Python `d.pop(k, None)` (the resulting dictionary). -/
def dictPop {V : Type} (d : List (String × V)) (k : String) :
    List (String × V) :=
  d.filter (fun p => p.1 ≠ k)

/-- Python `d.get(k)` / `d[k]` lookup result. -/
def dictGet {V : Type} (d : List (String × V)) (k : String) : Option V :=
  (d.find? (fun p => p.1 = k)).map (fun p => p.2)

/-! ## Python values -/

/-- The Python values that flow through the engine: `None`, `int`, `str`,
`bool`. -/
inductive PyVal where
  | none
  | int (n : Int)
  | str (s : String)
  | bool (b : Bool)
  deriving DecidableEq, Repr

/-- Python truthiness of a `PyVal`. -/
def pyTruthy : PyVal → Bool
  | .none => false
  | .int n => n ≠ 0
  | .str s => s ≠ ""
  | .bool b => b

/-- Python `str(...)` of a `PyVal`. -/
def pyStr : PyVal → String
  | .none => "None"
  | .int n => toString n
  | .str s => s
  | .bool b => if b then "True" else "False"

/-! ## MD5 (`hashlib.md5`), executable -/

/-- Addition modulo `2^32`. -/
def add32 (a b : Nat) : Nat := (a + b) % 4294967296

/-- Bitwise complement on 32-bit words. -/
def not32 (a : Nat) : Nat := 4294967295 - a % 4294967296

/-- Left rotation of a 32-bit word by `s` bits. -/
def rotl32 (x s : Nat) : Nat :=
  Nat.lor ((x <<< s) % 4294967296) ((x % 4294967296) >>> (32 - s))

/-- The MD5 round constants `K[0..63]`. -/
def md5K : List Nat :=
  [0xd76aa478, 0xe8c7b756, 0x242070db, 0xc1bdceee,
   0xf57c0faf, 0x4787c62a, 0xa8304613, 0xfd469501,
   0x698098d8, 0x8b44f7af, 0xffff5bb1, 0x895cd7be,
   0x6b901122, 0xfd987193, 0xa679438e, 0x49b40821,
   0xf61e2562, 0xc040b340, 0x265e5a51, 0xe9b6c7aa,
   0xd62f105d, 0x02441453, 0xd8a1e681, 0xe7d3fbc8,
   0x21e1cde6, 0xc33707d6, 0xf4d50d87, 0x455a14ed,
   0xa9e3e905, 0xfcefa3f8, 0x676f02d9, 0x8d2a4c8a,
   0xfffa3942, 0x8771f681, 0x6d9d6122, 0xfde5380c,
   0xa4beea44, 0x4bdecfa9, 0xf6bb4b60, 0xbebfbc70,
   0x289b7ec6, 0xeaa127fa, 0xd4ef3085, 0x04881d05,
   0xd9d4d039, 0xe6db99e5, 0x1fa27cf8, 0xc4ac5665,
   0xf4292244, 0x432aff97, 0xab9423a7, 0xfc93a039,
   0x655b59c3, 0x8f0ccc92, 0xffeff47d, 0x85845dd1,
   0x6fa87e4f, 0xfe2ce6e0, 0xa3014314, 0x4e0811a1,
   0xf7537e82, 0xbd3af235, 0x2ad7d2bb, 0xeb86d391]

/-- The MD5 per-round left-rotation amounts `s[0..63]`. -/
def md5S : List Nat :=
  [7, 12, 17, 22, 7, 12, 17, 22, 7, 12, 17, 22, 7, 12, 17, 22,
   5, 9, 14, 20, 5, 9, 14, 20, 5, 9, 14, 20, 5, 9, 14, 20,
   4, 11, 16, 23, 4, 11, 16, 23, 4, 11, 16, 23, 4, 11, 16, 23,
   6, 10, 15, 21, 6, 10, 15, 21, 6, 10, 15, 21, 6, 10, 15, 21]

/-- The `k` low-order bytes of `n`, little-endian. -/
def leBytes : Nat → Nat → List Nat
  | 0, _ => []
  | k + 1, n => n % 256 :: leBytes k (n / 256)

/-- Little-endian bytes to a word. -/
def leWord (bytes : List Nat) : Nat :=
  bytes.foldr (fun b acc => b + 256 * acc) 0

/-- MD5 padding: append `0x80`, zero bytes to reach 56 mod 64, then the
64-bit little-endian bit length. -/
def md5Pad (msg : List Nat) : List Nat :=
  msg ++ [128] ++ List.replicate ((119 - msg.length % 64) % 64) 0 ++
    leBytes 8 (msg.length * 8)

/-- One MD5 round: `i` is the round index, `M` the chunk's word schedule. -/
def md5Round (M : Nat → Nat) (st : Nat × Nat × Nat × Nat) (i : Nat) :
    Nat × Nat × Nat × Nat :=
  let (a, b, c, d) := st
  let f :=
    if i < 16 then Nat.lor (Nat.land b c) (Nat.land (not32 b) d)
    else if i < 32 then Nat.lor (Nat.land d b) (Nat.land (not32 d) c)
    else if i < 48 then Nat.xor (Nat.xor b c) d
    else Nat.xor c (Nat.lor b (not32 d))
  let g :=
    if i < 16 then i
    else if i < 32 then (5 * i + 1) % 16
    else if i < 48 then (3 * i + 5) % 16
    else 7 * i % 16
  let f2 := (f + a + md5K.getD i 0 + M g) % 4294967296
  (d, add32 b (rotl32 f2 (md5S.getD i 0)), b, c)

/-- Process one 64-byte chunk. -/
def md5Chunk (chunk : List Nat) (st : Nat × Nat × Nat × Nat) :
    Nat × Nat × Nat × Nat :=
  let M := fun g => leWord ((chunk.drop (4 * g)).take 4)
  let (a, b, c, d) := (List.range 64).foldl (md5Round M) st
  (add32 st.1 a, add32 st.2.1 b, add32 st.2.2.1 c, add32 st.2.2.2 d)

/-- Process the padded message 64 bytes at a time (`fuel` bounds the number
of chunks; the message length is a multiple of 64 after padding). -/
def md5Process : Nat → List Nat → Nat × Nat × Nat × Nat → Nat × Nat × Nat × Nat
  | 0, _, st => st
  | fuel + 1, msg, st =>
    if msg.isEmpty then st
    else md5Process fuel (msg.drop 64) (md5Chunk (msg.take 64) st)

/-- A lowercase hexadecimal digit. -/
def hexDigit (n : Nat) : Char :=
  if n < 10 then Char.ofNat (48 + n) else Char.ofNat (87 + n)

/-- Two-digit lowercase hex of a byte. -/
def byteHex (b : Nat) : String :=
  String.mk [hexDigit (b / 16 % 16), hexDigit (b % 16)]

/-- The lowercase-hex MD5 digest of a byte sequence (Python
`hashlib.md5(bytes).hexdigest()`). -/
def md5Hex (msg : List Nat) : String :=
  let padded := md5Pad msg
  let st := md5Process (padded.length / 64) padded
    (0x67452301, 0xefcdab89, 0x98badcfe, 0x10325476)
  String.join ((leBytes 4 st.1 ++ leBytes 4 st.2.1 ++
    leBytes 4 st.2.2.1 ++ leBytes 4 st.2.2.2).map byteHex)

/-- UTF-8 encoding of one character (Python `str.encode()` is UTF-8). -/
def encodeChar (c : Char) : List Nat :=
  let n := c.toNat
  if n < 128 then [n]
  else if n < 2048 then [192 + n / 64, 128 + n % 64]
  else if n < 65536 then
    [224 + n / 4096, 128 + n / 64 % 64, 128 + n % 64]
  else
    [240 + n / 262144, 128 + n / 4096 % 64, 128 + n / 64 % 64, 128 + n % 64]

/-- UTF-8 bytes of a string (Python `name.encode()`). -/
def utf8Bytes (s : String) : List Nat :=
  (s.data.map encodeChar).flatten

/-- Character-list version of the string-prefix test. -/
def strStartsWithAux : List Char → List Char → Bool
  | [], _ => true
  | _ :: _, [] => false
  | c :: cs, d :: ds => c == d && strStartsWithAux cs ds

/-- Python `s.startswith(pre)` (executable; `String.startsWith` in core is
well-founded and does not reduce). -/
def strStartsWith (s pre : String) : Bool :=
  strStartsWithAux pre.data s.data

/- Sanity checks of the MD5 implementation against standard test vectors. -/
example : md5Hex [] = "d41d8cd98f00b204e9800998ecf8427e" := by rfl
example : md5Hex (utf8Bytes "abc") = "900150983cd24fb0d6963f7d28e17f72" := by
  rfl

/-! ## Remote service model and errors (`src/gdbt/resource/resource.py`) -/

/-- `IGNORED_KEYS = ["id", "uid", "version"]`. -/
def IGNORED_KEYS : List String := ["id", "uid", "version"]

/-- A `grafana_api.grafana_api.GrafanaException`: `isClientError` marks the
`GrafanaClientError` subclass; every exception carries `status_code` and
`message`. -/
structure GrafanaExc where
  isClientError : Bool
  status_code : Int
  message : String
  deriving DecidableEq, Repr

/-- Errors surfaced by the lifecycle code: gdbt's own `ProviderNotFound`,
`DataError` and `GrafanaError`, plus an uncaught Python `KeyError` from a
missing dictionary key. -/
inductive GdbtError where
  | providerNotFound (key : String)
  | dataError (msg : String)
  | grafanaError (msg : String)
  | keyError (key : String)
  deriving DecidableEq, Repr

/-- Python `d[k]`: the value, or an uncaught `KeyError`. -/
def pyGet (d : List (String × PyVal)) (k : String) : Except GdbtError PyVal :=
  match dictGet d k with
  | Option.none => Except.error (GdbtError.keyError k)
  | some v => Except.ok v

/-- The remote response of `client.folder.get_folder_by_id`, with the shape
the code relies on (`data["title"]` and `data["uid"]`, the folder's string
uid). -/
structure FolderByIdData where
  title : PyVal
  uid : String
  deriving DecidableEq, Repr

/-- The remote response of `client.dashboard.get_dashboard`, with the shape
the code relies on: `dashboard["dashboard"]` (the model dictionary) and
`dashboard["meta"]["folderId"]`. -/
structure DashboardData where
  dashboard : List (String × PyVal)
  folderId : PyVal
  deriving DecidableEq, Repr

/-- The payload submitted by `update_dashboard`:
`{"dashboard": model, "folderId": id, "overwrite": flag}`. -/
structure DashMeta where
  dashboard : List (String × PyVal)
  folderId : PyVal
  overwrite : Bool
  deriving DecidableEq, Repr

/-- The grafana client capability (`provider.client.folder.*` and
`provider.client.dashboard.*`), an external collaborator: each remote call
either succeeds or raises a `GrafanaExc`. -/
structure GrafanaClient where
  get_folder : String → Except GrafanaExc (List (String × PyVal))
  create_folder : PyVal → String → Except GrafanaExc PyVal
  update_folder : String → PyVal → Bool → Except GrafanaExc PyVal
  delete_folder : String → Except GrafanaExc PyVal
  get_folder_by_id : PyVal → Except GrafanaExc FolderByIdData
  get_dashboard : String → Except GrafanaExc DashboardData
  update_dashboard : DashMeta → Except GrafanaExc PyVal
  delete_dashboard : String → Except GrafanaExc PyVal

/-- A provider from the registry; the lifecycle code only uses its `client`
attribute. -/
structure Provider where
  client : GrafanaClient

/-! ## Resource data (`src/gdbt/resource/resource.py`, attrs fields) -/

namespace Resource

/-- The `Folder` resource's attrs fields (`grafana`, `uid`, `model`). -/
structure Folder where
  grafana : String
  uid : String
  model : List (String × PyVal)
  deriving DecidableEq, Repr

/-- The `Dashboard` resource's attrs fields (`grafana`, `uid`, `model`,
`folder`). -/
structure Dashboard where
  grafana : String
  uid : String
  model : List (String × PyVal)
  folder : String
  deriving DecidableEq, Repr

/-- A value of the heterogeneous dictionary returned by `serialize`. -/
inductive SerVal where
  | s (v : String)
  | dict (d : List (String × PyVal))
  deriving DecidableEq, Repr

/-- `Resource.client`: looks the provider up by key; a missing key raises
`ProviderNotFound`. -/
def client (grafana : String) (providers : List (String × Provider)) :
    Except GdbtError Provider :=
  match dictGet providers grafana with
  | Option.none => Except.error (GdbtError.providerNotFound grafana)
  | some provider => Except.ok provider

/-! ### Folder lifecycle -/

/-- `Folder.get`: any `GrafanaException` becomes a fatal `GrafanaError`; the
model keeps only the remote title (`{"title": title}`). The `["title"]`
subscript can raise an uncaught `KeyError` (not a `GrafanaException`). -/
def Folder.get (grafana uid : String)
    (providers : List (String × Provider)) : Except GdbtError Folder := do
  let p ← client grafana providers
  match p.client.get_folder uid with
  | Except.error exc => Except.error (GdbtError.grafanaError exc.message)
  | Except.ok data => do
      let title ← pyGet data "title"
      Except.ok { grafana, uid, model := [("title", title)] }

/-- `Folder.exists`: false exactly on a `GrafanaClientError` with status 404;
any other `GrafanaException` is fatal; true when the read succeeds. -/
def Folder.exists (grafana uid : String)
    (providers : List (String × Provider)) : Except GdbtError Bool := do
  let p ← client grafana providers
  match p.client.get_folder uid with
  | Except.error exc =>
      if exc.isClientError && exc.status_code == 404 then Except.ok false
      else Except.error (GdbtError.grafanaError exc.message)
  | Except.ok _ => Except.ok true

/-- `Folder.create`: a missing `"title"` key raises `DataError`; a
`GrafanaException` with status other than 412 is fatal, a 412
("precondition failed") is swallowed; in both non-fatal cases the folder is
re-read via `get` and returned. -/
def Folder.create (grafana uid : String) (model : List (String × PyVal))
    (providers : List (String × Provider)) : Except GdbtError Folder :=
  match dictGet model "title" with
  | Option.none =>
      Except.error (GdbtError.dataError "Folder model missing 'title' key")
  | some title =>
    match client grafana providers with
    | Except.error e => Except.error e
    | Except.ok p =>
      match p.client.create_folder title uid with
      | Except.error exc =>
          if exc.status_code ≠ 412 then
            Except.error (GdbtError.grafanaError exc.message)
          else Folder.get grafana uid providers
      | Except.ok _ => Folder.get grafana uid providers

/-- `Folder.get_by_id`: reverse lookup of a folder by numeric remote id; any
`GrafanaException` is fatal. -/
def Folder.get_by_id (grafana : String) (id : PyVal)
    (providers : List (String × Provider)) : Except GdbtError Folder := do
  let p ← client grafana providers
  match p.client.get_folder_by_id id with
  | Except.error exc => Except.error (GdbtError.grafanaError exc.message)
  | Except.ok data =>
      Except.ok { grafana, uid := data.uid, model := [("title", data.title)] }

/-- `Folder.id`: re-reads the folder and projects the remote `"id"` field;
any `GrafanaException` is fatal. -/
def Folder.id (self : Folder) (providers : List (String × Provider)) :
    Except GdbtError PyVal := do
  let p ← client self.grafana providers
  match p.client.get_folder self.uid with
  | Except.error exc => Except.error (GdbtError.grafanaError exc.message)
  | Except.ok data => pyGet data "id"

/-- `Folder.update`: requires `"title"` (else `DataError`); overwrites
unconditionally (`overwrite=True`); any `GrafanaException` is fatal. -/
def Folder.update (self : Folder) (model : List (String × PyVal))
    (providers : List (String × Provider)) : Except GdbtError Unit :=
  match dictGet model "title" with
  | Option.none =>
      Except.error (GdbtError.dataError "Folder model missing 'title' key")
  | some title => do
    let p ← client self.grafana providers
    match p.client.update_folder self.uid title true with
    | Except.error exc => Except.error (GdbtError.grafanaError exc.message)
    | Except.ok _ => Except.ok ()

/-- `Folder.delete`: a `GrafanaClientError` with status 404 is swallowed
(idempotent delete); any other `GrafanaException` is fatal. -/
def Folder.delete (self : Folder) (providers : List (String × Provider)) :
    Except GdbtError Unit := do
  let p ← client self.grafana providers
  match p.client.delete_folder self.uid with
  | Except.error exc =>
      if exc.isClientError && exc.status_code == 404 then Except.ok ()
      else Except.error (GdbtError.grafanaError exc.message)
  | Except.ok _ => Except.ok ()

/-- `Folder.serialize`: `{kind, grafana, uid, model}` (the `providers`
argument is unused by the source). -/
def Folder.serialize (self : Folder)
    (_providers : List (String × Provider)) : List (String × SerVal) :=
  [("kind", SerVal.s "folder"), ("grafana", SerVal.s self.grafana),
   ("uid", SerVal.s self.uid), ("model", SerVal.dict self.model)]

/-! ### Dashboard lifecycle -/

/-- `Dashboard.get`: any `GrafanaException` is fatal; the returned model is
the remote `dashboard["dashboard"]` with the `IGNORED_KEYS` popped, and
`folder` is the uid of the folder fetched by the remote numeric
`dashboard["meta"]["folderId"]`. -/
def Dashboard.get (grafana uid : String)
    (providers : List (String × Provider)) : Except GdbtError Dashboard := do
  let p ← client grafana providers
  match p.client.get_dashboard uid with
  | Except.error exc => Except.error (GdbtError.grafanaError exc.message)
  | Except.ok resp => do
      let model := resp.dashboard
      let folderRes ← Folder.get_by_id grafana resp.folderId providers
      let folder := folderRes.uid
      let model := IGNORED_KEYS.foldl (fun m k => dictPop m k) model
      Except.ok { grafana, uid, model, folder }

/-- `Dashboard.exists`: same policy as `Folder.exists`, against
`get_dashboard`. -/
def Dashboard.exists (grafana uid : String)
    (providers : List (String × Provider)) : Except GdbtError Bool := do
  let p ← client grafana providers
  match p.client.get_dashboard uid with
  | Except.error exc =>
      if exc.isClientError && exc.status_code == 404 then Except.ok false
      else Except.error (GdbtError.grafanaError exc.message)
  | Except.ok _ => Except.ok true

/-- `Dashboard.id`: re-fetches the dashboard and projects
`dashboard["dashboard"]["id"]` (an uncaught `KeyError` when absent). -/
def Dashboard.id (self : Dashboard)
    (providers : List (String × Provider)) : Except GdbtError PyVal := do
  let p ← client self.grafana providers
  match p.client.get_dashboard self.uid with
  | Except.error exc => Except.error (GdbtError.grafanaError exc.message)
  | Except.ok resp => pyGet resp.dashboard "id"

/-- `Dashboard.version`: re-fetches the dashboard and projects
`dashboard["dashboard"]["version"]` (an uncaught `KeyError` when absent). -/
def Dashboard.version (self : Dashboard)
    (providers : List (String × Provider)) : Except GdbtError PyVal := do
  let p ← client self.grafana providers
  match p.client.get_dashboard self.uid with
  | Except.error exc => Except.error (GdbtError.grafanaError exc.message)
  | Except.ok resp => pyGet resp.dashboard "version"

/-- `Dashboard.create`: `model.update({"id": None, "uid": uid, "version":
1})` mutates the caller's dictionary in place before any remote call (the
mutated dictionary is returned alongside the result, modelling the in-place
effect); the folder reference is resolved to its numeric remote id via
`Folder.get` + `id`; submission uses `overwrite=True`; any
`GrafanaException` is fatal; on success the dashboard is re-read via
`get`. -/
def Dashboard.create (grafana uid : String) (model : List (String × PyVal))
    (folder : String) (providers : List (String × Provider)) :
    Except GdbtError (Dashboard × List (String × PyVal)) := do
  let model := dictMerge model
    [("id", PyVal.none), ("uid", PyVal.str uid), ("version", PyVal.int 1)]
  let folderRes ← Folder.get grafana folder providers
  let folderId ← folderRes.id providers
  let meta : DashMeta := { dashboard := model, folderId, overwrite := true }
  let p ← client grafana providers
  match p.client.update_dashboard meta with
  | Except.error exc => Except.error (GdbtError.grafanaError exc.message)
  | Except.ok _ => do
      let d ← Dashboard.get grafana uid providers
      Except.ok (d, model)

/-- `Dashboard.update`: `version_new = self.version(providers) + 1` under a
`try` that catches only `TypeError` (a non-int version makes `+ 1` raise
`TypeError`, giving 1; Python `bool` is an int, so `True + 1 = 2`); a
`GrafanaError` or an uncaught `KeyError` from `version` propagates. Then
`model.update({"id", "uid", "version"})` mutates the caller's dictionary,
the folder reference is resolved to its numeric id, and the submission uses
`overwrite=True`; any `GrafanaException` is fatal. On success the mutated
caller dictionary is returned (Python returns `None`; the in-place effect is
modelled by returning the post-state). -/
def Dashboard.update (self : Dashboard) (model : List (String × PyVal))
    (providers : List (String × Provider)) :
    Except GdbtError (List (String × PyVal)) := do
  let version_new : Int ←
    match Dashboard.version self providers with
    | Except.error e => Except.error e
    | Except.ok (PyVal.int n) => Except.ok (n + 1)
    | Except.ok (PyVal.bool b) => Except.ok ((if b then (1 : Int) else 0) + 1)
    | Except.ok _ => Except.ok 1
  let idVal ← Dashboard.id self providers
  let model := dictMerge model
    [("id", idVal), ("uid", PyVal.str self.uid),
     ("version", PyVal.int version_new)]
  let folderRes ← Folder.get self.grafana self.folder providers
  let folderId ← folderRes.id providers
  let meta : DashMeta := { dashboard := model, folderId, overwrite := true }
  let p ← client self.grafana providers
  match p.client.update_dashboard meta with
  | Except.error exc => Except.error (GdbtError.grafanaError exc.message)
  | Except.ok _ => Except.ok model

/-- `Dashboard.delete`: a `GrafanaClientError` with status 404 is swallowed
(idempotent delete); any other `GrafanaException` is fatal. -/
def Dashboard.delete (self : Dashboard)
    (providers : List (String × Provider)) : Except GdbtError Unit := do
  let p ← client self.grafana providers
  match p.client.delete_dashboard self.uid with
  | Except.error exc =>
      if exc.isClientError && exc.status_code == 404 then Except.ok ()
      else Except.error (GdbtError.grafanaError exc.message)
  | Except.ok _ => Except.ok ()

/-- `Dashboard.serialize`: `{kind, grafana, uid, model, folder}`. -/
def Dashboard.serialize (self : Dashboard)
    (_providers : List (String × Provider)) : List (String × SerVal) :=
  [("kind", SerVal.s "dashboard"), ("grafana", SerVal.s self.grafana),
   ("uid", SerVal.s self.uid), ("model", SerVal.dict self.model),
   ("folder", SerVal.s self.folder)]

end Resource

/-! ## Stencils (`src/gdbt/stencil/stencil.py`) -/

/-- A lazy evaluation binding (`gdbt.templating.evaluation.Evaluation`,
external collaborator): produces a concrete value given the provider
registry of type `P`. -/
structure Evaluation (P : Type) where
  value : P → PyVal

/-- The data fields of `ResourceStencil`, with the `Stencil` base-class
fields (`kind`, `evaluations`, `lookups`) inlined. `P` is the type of the
provider registry (opaque to the stencil layer). `Optional` dictionary
fields are `Option` association lists. -/
structure ResourceStencil (P : Type) where
  kind : String
  evaluations : Option (List (String × Evaluation P))
  lookups : Option (List (String × PyVal))
  provider : String
  loop : Option String
  model : String

/-- `ResourceStencil.resolve_vars`: Python replaces a falsy (`None` or empty)
inherited map by `{}` (modelled by `Option.getD []`, which agrees on both),
merges the stencil's own bindings on top (`{**inherited, **(self.x or {})}`),
forces every merged evaluation via `value(providers)`, and passes merged
lookups through unchanged. -/
def ResourceStencil.resolve_vars {P : Type} (st : ResourceStencil P)
    (providers : P)
    (evaluations : Option (List (String × Evaluation P)))
    (lookups : Option (List (String × PyVal))) :
    List (String × PyVal) × List (String × PyVal) :=
  let evaluations := evaluations.getD []
  let lookups := lookups.getD []
  let evaluations_resolved :=
    (dictMerge evaluations (st.evaluations.getD [])).map
      (fun p => (p.1, p.2.value providers))
  let lookups_resolved := dictMerge lookups (st.lookups.getD [])
  (evaluations_resolved, lookups_resolved)

/-- Python truthiness of the optional loop specification string
(`not self.loop` is true for `None` and for `""`). -/
def optStrTruthy : Option String → Bool
  | Option.none => false
  | some s => s ≠ ""

/-- `ResourceStencil.resolve_loops`, with the generator modelled as the list
of yielded items: with no (truthy) loop declared it yields exactly `None`;
otherwise it yields the items of the external
`gdbt.stencil.iterator.Iterator(self.loop).iterable(providers, evaluations,
lookups)`, modelled by the parameter `iter`. -/
def ResourceStencil.resolve_loops {P : Type} (st : ResourceStencil P)
    (iter : String → P → List (String × PyVal) → List (String × PyVal) →
      List PyVal)
    (providers : P)
    (evaluations lookups : List (String × PyVal)) : List PyVal :=
  if !optStrTruthy st.loop then [PyVal.none]
  else iter (st.loop.getD "") providers evaluations lookups

/-- `ResourceStencil.format_name`: `kind + "_" + name`, plus
`"_" + str(loop_item)` when the loop item is truthy. -/
def ResourceStencil.format_name {P : Type} (st : ResourceStencil P)
    (name : String) (loop_item : PyVal) : String :=
  let name := st.kind ++ "_" ++ name
  if pyTruthy loop_item then name ++ "_" ++ pyStr loop_item else name

/-- `ResourceStencil.format_uid` (the method ignores `self`):
`"gdbt_" + hashlib.md5(name.encode()).hexdigest()`. -/
def format_uid (name : String) : String :=
  "gdbt_" ++ md5Hex (utf8Bytes name)

/-- `ResourceStencil.resolve`: resolves variables, then for each loop item
in order derives the instance name and uid, renders the model template
(external collaborator `render`), builds the kind-specific resource through
the `make_resource` hook, and inserts it under the instance name
(`resources.update({resource_name: resource})`, i.e. `dictSet`). -/
def ResourceStencil.resolve {P R : Type} (st : ResourceStencil P)
    (make_resource : String → String → String → P → R)
    (iter : String → P → List (String × PyVal) → List (String × PyVal) →
      List PyVal)
    (render : String → P → List (String × PyVal) → List (String × PyVal) →
      PyVal → String)
    (name : String) (providers : P)
    (evaluations : Option (List (String × Evaluation P)))
    (lookups : Option (List (String × PyVal))) : List (String × R) :=
  let vars := st.resolve_vars providers evaluations lookups
  let evaluations := vars.1
  let lookups := vars.2
  (st.resolve_loops iter providers evaluations lookups).foldl
    (fun resources item =>
      let resource_name := st.format_name name item
      let uid := format_uid resource_name
      let model := render st.model providers evaluations lookups item
      let resource := make_resource st.provider uid model providers
      dictSet resources resource_name resource)
    []

namespace Stencil

/-- The `Dashboard` stencil subclass: adds the `folder` field and fixes
`kind = "dashboard"` in its constructor calls. -/
structure Dashboard (P : Type) extends ResourceStencil P where
  folder : String

/-- `Dashboard.make_resource` (stencil side): parses the rendered model
(external `json.loads`, modelled by the parameter `jsonLoads` restricted to
the top-level object), pops the `"id"` key, prepends `"folder_"` to the
stencil's folder reference unless it already starts with it, and builds a
`Resource.Dashboard` whose folder is the `format_uid` of that name. -/
def Dashboard.make_resource {P : Type} (st : Dashboard P)
    (jsonLoads : String → List (String × PyVal))
    (grafana uid model : String) (_providers : P) : Resource.Dashboard :=
  let model_dict := dictPop (jsonLoads model) "id"
  let folder_name :=
    if strStartsWith st.folder "folder_" then st.folder
    else "folder_" ++ st.folder
  let folder_uid := format_uid folder_name
  { grafana, uid, model := model_dict, folder := folder_uid }

/-- The `Folder` stencil subclass (`kind = "folder"`, no extra fields). -/
structure Folder (P : Type) extends ResourceStencil P

/-- `Folder.make_resource` (stencil side): parses the rendered model and
builds a `Resource.Folder` with no further transformation. -/
def Folder.make_resource {P : Type} (_st : Folder P)
    (jsonLoads : String → List (String × PyVal))
    (grafana uid model : String) (_providers : P) : Resource.Folder :=
  { grafana, uid, model := jsonLoads model }

end Stencil

/-! ## Dictionary lemmas -/

theorem dictSet_append {V : Type} (d : List (String × V)) (k : String)
    (v : V) (h : d.any (fun p => p.1 = k) = false) :
    dictSet d k v = d ++ [(k, v)] := by
  simp only [dictSet, h]
  simp

theorem dictGet_nil {V : Type} (k : String) :
    dictGet ([] : List (String × V)) k = Option.none := rfl

theorem dictGet_cons {V : Type} (p : String × V) (d : List (String × V))
    (k : String) :
    dictGet (p :: d) k = if p.1 = k then some p.2 else dictGet d k := by
  by_cases hp : p.1 = k <;> simp [dictGet, List.find?, hp]

theorem dictGet_dictSet_self {V : Type} (d : List (String × V)) (k : String)
    (v : V) : dictGet (dictSet d k v) k = some v := by
  unfold dictSet
  by_cases h : d.any (fun p => p.1 = k) = true
  · rw [if_pos h]
    induction d with
    | nil => simp at h
    | cons p d ih =>
      by_cases hp : p.1 = k
      · simp [dictGet_cons, hp]
      · simp only [List.any_cons, Bool.or_eq_true, decide_eq_true_eq] at h
        have hd : d.any (fun p => p.1 = k) = true := by
          rcases h with h | h
          · exact absurd h hp
          · exact h
        simpa [dictGet_cons, hp] using ih hd
  · rw [if_neg h]
    simp only [Bool.not_eq_true] at h
    induction d with
    | nil => simp [dictGet_cons]
    | cons p d ih =>
      simp only [List.any_cons, Bool.or_eq_false_iff,
        decide_eq_false_iff_not] at h
      simpa [dictGet_cons, h.1] using ih (by simp [h.2])

theorem dictGet_map_replace {V : Type} (d : List (String × V))
    (k k' : String) (v : V) (h : ¬k' = k) :
    dictGet (d.map (fun p => if p.1 = k' then (k', v) else p)) k =
      dictGet d k := by
  have hkk : ¬k = k' := fun e => h e.symm
  induction d with
  | nil => rfl
  | cons p d ih =>
    by_cases hp : p.1 = k'
    · have hpk : ¬p.1 = k := by rw [hp]; exact h
      simp [dictGet_cons, hp, h, hpk, ih]
    · by_cases hk : p.1 = k <;> simp [dictGet_cons, hp, hk, hkk, ih]

theorem dictGet_append_single {V : Type} (d : List (String × V))
    (k k' : String) (v : V) (h : ¬k' = k) :
    dictGet (d ++ [(k', v)]) k = dictGet d k := by
  induction d with
  | nil => simp [dictGet_cons, dictGet_nil, h]
  | cons p d ih =>
    by_cases hk : p.1 = k <;> simp [dictGet_cons, hk, ih]

theorem dictGet_dictSet_ne {V : Type} (d : List (String × V))
    (k k' : String) (v : V) (h : ¬k' = k) :
    dictGet (dictSet d k' v) k = dictGet d k := by
  unfold dictSet
  split
  · exact dictGet_map_replace d k k' v h
  · exact dictGet_append_single d k k' v h

theorem dictGet_dictPop_self {V : Type} (d : List (String × V))
    (k : String) : dictGet (dictPop d k) k = Option.none := by
  induction d with
  | nil => rfl
  | cons p d ih =>
    simp only [dictPop, List.filter_cons] at ih ⊢
    by_cases hp : p.1 = k
    · simpa [hp] using ih
    · simpa [hp, dictGet_cons] using ih

theorem dictGet_dictPop_ne {V : Type} (d : List (String × V))
    (k k' : String) (h : ¬k' = k) :
    dictGet (dictPop d k') k = dictGet d k := by
  induction d with
  | nil => rfl
  | cons p d ih =>
    simp only [dictPop, List.filter_cons] at ih ⊢
    by_cases hp : p.1 = k'
    · have hpk : ¬p.1 = k := by rw [hp]; exact h
      rw [if_neg (by simp [hp]), dictGet_cons, if_neg hpk]
      exact ih
    · rw [if_pos (by simp [hp]), dictGet_cons, dictGet_cons]
      by_cases hk : p.1 = k
      · simp [hk]
      · simp only [hk, if_false]
        exact ih

theorem dictGet_dictMerge_none {V : Type} (a b : List (String × V))
    (k : String) (h : dictGet b k = Option.none) :
    dictGet (dictMerge a b) k = dictGet a k := by
  induction b generalizing a with
  | nil => rfl
  | cons p b ih =>
    rw [dictGet_cons] at h
    by_cases hp : p.1 = k
    · simp [hp] at h
    · simp only [hp, if_neg, if_false] at h
      show dictGet (dictMerge (dictSet a p.1 p.2) b) k = dictGet a k
      rw [ih _ h, dictGet_dictSet_ne _ _ _ _ hp]

theorem dictGet_dictMerge_some {V : Type} (a b : List (String × V))
    (k : String) (v : V) (hnd : (b.map Prod.fst).Nodup)
    (h : dictGet b k = some v) :
    dictGet (dictMerge a b) k = some v := by
  induction b generalizing a with
  | nil => simp [dictGet_nil] at h
  | cons p b ih =>
    rw [dictGet_cons] at h
    simp only [List.map_cons, List.nodup_cons] at hnd
    by_cases hp : p.1 = k
    · rw [if_pos hp] at h
      have hb : dictGet b k = Option.none := by
        cases hbk : dictGet b k with
        | none => rfl
        | some w =>
          exfalso
          apply hnd.1
          rw [hp]
          clear ih h hnd
          induction b with
          | nil => simp [dictGet_nil] at hbk
          | cons q b ihb =>
            rw [dictGet_cons] at hbk
            by_cases hq : q.1 = k
            · simp [hq]
            · simp only [hq, if_neg, if_false] at hbk
              simp [ihb hbk]
      show dictGet (dictMerge (dictSet a p.1 p.2) b) k = some v
      rw [dictGet_dictMerge_none _ _ _ hb, hp, dictGet_dictSet_self]
      rw [← h]
    · rw [if_neg hp] at h
      exact ih (dictSet a p.1 p.2) hnd.2 h

theorem foldl_dictSet_append {V : Type} (ps acc : List (String × V))
    (hnd : (ps.map Prod.fst).Nodup)
    (hdisj : ∀ p ∈ ps, acc.any (fun q => q.1 = p.1) = false) :
    ps.foldl (fun d p => dictSet d p.1 p.2) acc = acc ++ ps := by
  induction ps generalizing acc with
  | nil => simp
  | cons p ps ih =>
    simp only [List.map_cons, List.nodup_cons] at hnd
    simp only [List.foldl_cons]
    rw [dictSet_append _ _ _ (hdisj p (by simp))]
    rw [ih (acc ++ [(p.1, p.2)]) hnd.2]
    · simp
    · intro q hq
      simp only [List.any_append, Bool.or_eq_false_iff]
      refine ⟨hdisj q (List.mem_cons_of_mem _ hq), ?_⟩
      simp only [List.any_cons, List.any_nil, Bool.or_false,
        decide_eq_false_iff_not]
      intro e
      exact hnd.1 (e ▸ List.mem_map_of_mem Prod.fst hq)

theorem mem_dictSet {V : Type} {d : List (String × V)} {k : String} {v : V}
    {q : String × V} (h : q ∈ dictSet d k v) : q ∈ d ∨ q = (k, v) := by
  unfold dictSet at h
  split at h
  · rcases List.mem_map.mp h with ⟨p, hp, he⟩
    by_cases hpk : p.1 = k
    · right; rw [if_pos hpk] at he; exact he.symm
    · left; rw [if_neg hpk] at he; exact he ▸ hp
  · rcases List.mem_append.mp h with h | h
    · left; exact h
    · right; simpa using h

theorem mem_foldl_dictSet {V : Type} (ps acc : List (String × V))
    (q : String × V)
    (h : q ∈ ps.foldl (fun d p => dictSet d p.1 p.2) acc) :
    q ∈ acc ∨ q ∈ ps := by
  induction ps generalizing acc with
  | nil => left; exact h
  | cons p ps ih =>
    simp only [List.foldl_cons] at h
    rcases ih (dictSet acc p.1 p.2) h with h1 | h1
    · rcases mem_dictSet h1 with h2 | h2
      · left; exact h2
      · right; simp [h2]
    · right; exact List.mem_cons_of_mem _ h1

/-- `resolve` as a fold of `dictSet` over the per-item entries, a bridge
used by the resolution theorems. -/
theorem resolve_eq_foldl {P R : Type} (st : ResourceStencil P)
    (make_resource : String → String → String → P → R)
    (iter : String → P → List (String × PyVal) → List (String × PyVal) →
      List PyVal)
    (render : String → P → List (String × PyVal) → List (String × PyVal) →
      PyVal → String)
    (name : String) (providers : P)
    (evaluations : Option (List (String × Evaluation P)))
    (lookups : Option (List (String × PyVal))) :
    st.resolve make_resource iter render name providers evaluations lookups =
      ((st.resolve_loops iter providers
          (st.resolve_vars providers evaluations lookups).1
          (st.resolve_vars providers evaluations lookups).2).map
        (fun item =>
          (st.format_name name item,
           make_resource st.provider (format_uid (st.format_name name item))
             (render st.model providers
               (st.resolve_vars providers evaluations lookups).1
               (st.resolve_vars providers evaluations lookups).2 item)
             providers))).foldl (fun d p => dictSet d p.1 p.2) [] := by
  rw [List.foldl_map]
  rfl

/-! ## Test fixtures used by witnesses and counterexamples -/

/-- A stencil with a declared loop, used to exercise `resolve`. -/
def loopStencil : ResourceStencil Unit :=
  { kind := "dashboard", evaluations := Option.none, lookups := Option.none,
    provider := "p1", loop := some "items", model := "body" }

/-- An iterator yielding two distinct items. -/
def iterAB : String → Unit → List (String × PyVal) → List (String × PyVal) →
    List PyVal := fun _ _ _ _ => [PyVal.str "a", PyVal.str "b"]

/-- An iterator yielding the same item twice (so the two derived instance
names collide). -/
def iterXX : String → Unit → List (String × PyVal) → List (String × PyVal) →
    List PyVal := fun _ _ _ _ => [PyVal.str "x", PyVal.str "x"]

/-- A `make_resource` hook recording its `provider`, `uid` and rendered
model arguments. -/
def mkTriple : String → String → String → Unit → String × String × String :=
  fun provider uid model _ => (provider, uid, model)

/-- A renderer returning the template string unchanged (a template with no
expressions). -/
def renderId : String → Unit → List (String × PyVal) → List (String × PyVal) →
    PyVal → String := fun t _ _ _ _ => t

/-! ## C1 -/

/-- C1 (amended): with no (truthy) loop declared, `resolve` returns exactly
the single entry keyed by `format_name` of the `None` sentinel; with a
declared loop whose iterator yields the items `items`, and whose derived
instance names are pairwise distinct, `resolve` returns exactly one entry
per item, keyed by `format_name` applied to each item, inserted in iterator
order. (Colliding names silently overwrite, see the counterexample.) -/
theorem resolve_entries {P R : Type} (st : ResourceStencil P)
    (make_resource : String → String → String → P → R)
    (iter : String → P → List (String × PyVal) → List (String × PyVal) →
      List PyVal)
    (render : String → P → List (String × PyVal) → List (String × PyVal) →
      PyVal → String)
    (name : String) (providers : P)
    (evaluations : Option (List (String × Evaluation P)))
    (lookups : Option (List (String × PyVal))) :
    (optStrTruthy st.loop = false →
      st.resolve make_resource iter render name providers evaluations
          lookups =
        [(st.format_name name PyVal.none,
          make_resource st.provider
            (format_uid (st.format_name name PyVal.none))
            (render st.model providers
              (st.resolve_vars providers evaluations lookups).1
              (st.resolve_vars providers evaluations lookups).2 PyVal.none)
            providers)])
    ∧ (∀ items : List PyVal, optStrTruthy st.loop = true →
        iter (st.loop.getD "") providers
            (st.resolve_vars providers evaluations lookups).1
            (st.resolve_vars providers evaluations lookups).2 = items →
        (items.map (fun item => st.format_name name item)).Nodup →
        st.resolve make_resource iter render name providers evaluations
            lookups =
          items.map (fun item =>
            (st.format_name name item,
             make_resource st.provider
               (format_uid (st.format_name name item))
               (render st.model providers
                 (st.resolve_vars providers evaluations lookups).1
                 (st.resolve_vars providers evaluations lookups).2 item)
               providers))) := by
  constructor
  · intro hloop
    rw [resolve_eq_foldl]
    unfold ResourceStencil.resolve_loops
    rw [hloop]
    rfl
  · intro items hloop hiter hnd
    have hloops : st.resolve_loops iter providers
        (st.resolve_vars providers evaluations lookups).1
        (st.resolve_vars providers evaluations lookups).2 = items := by
      unfold ResourceStencil.resolve_loops
      rw [hloop]
      simpa using hiter
    rw [resolve_eq_foldl, hloops, foldl_dictSet_append]
    · simp
    · simpa [List.map_map, Function.comp] using hnd
    · intro p _
      rfl

/-- C1 witness: a loop over two distinct items produces the two entries in
iterator order. -/
theorem resolve_entries_witness :
    loopStencil.resolve mkTriple iterAB renderId "db" () Option.none
        Option.none =
      [("dashboard_db_a",
        ("p1", format_uid "dashboard_db_a", "body")),
       ("dashboard_db_b",
        ("p1", format_uid "dashboard_db_b", "body"))] := by
  rw [(resolve_entries loopStencil mkTriple iterAB renderId "db" ()
      Option.none Option.none).2 [PyVal.str "a", PyVal.str "b"] rfl rfl
      (by decide)]
  rfl

/-- C1 counterexample: a declared loop whose iterator yields 2 items whose
derived names collide makes `resolve` return 1 entry, not 2. -/
theorem resolve_entries_counterexample :
    (iterXX "items" () [] []).length = 2 ∧
    (loopStencil.resolve mkTriple iterXX renderId "db" () Option.none
        Option.none).length = 1 ∧
    (loopStencil.resolve mkTriple iterXX renderId "db" () Option.none
        Option.none).length ≠ (iterXX "items" () [] []).length := by
  refine ⟨rfl, rfl, by decide⟩

/-! ## C2 -/

/-- C2: `format_name` returns `kind + "_" + name` and appends
`"_" + str(loop_item)` if and only if the loop item is truthy; the falsy
items `None`, `""` and `0` produce no suffix. -/
theorem format_name_contract {P : Type} (st : ResourceStencil P)
    (name : String) (item : PyVal) :
    st.format_name name item =
      st.kind ++ "_" ++ name ++
        (if pyTruthy item then "_" ++ pyStr item else "")
    ∧ (pyTruthy item = false →
        st.format_name name item = st.kind ++ "_" ++ name)
    ∧ st.format_name name PyVal.none = st.kind ++ "_" ++ name
    ∧ st.format_name name (PyVal.str "") = st.kind ++ "_" ++ name
    ∧ st.format_name name (PyVal.int 0) = st.kind ++ "_" ++ name := by
  unfold ResourceStencil.format_name
  refine ⟨?_, ?_, rfl, rfl, rfl⟩
  · by_cases h : pyTruthy item
    · simp [h, String.append_assoc]
    · simp [h]
  · intro h
    simp [h]

/-- C2 witness: a zero loop item leaves the name unsuffixed. -/
theorem format_name_contract_witness :
    loopStencil.format_name "db" (PyVal.int 0) = "dashboard_db" :=
  ((format_name_contract loopStencil "db" (PyVal.int 0)).2.1
    (by decide)).trans (by rfl)

/-! ## C3 -/

/-- The scenario folder stencil
`{kind: "folder", provider: "p1", model: '\x7b"title":"Team A"\x7d'}`,
no loop. -/
def scenarioFolderStencil : Stencil.Folder Unit :=
  { kind := "folder", evaluations := Option.none, lookups := Option.none,
    provider := "p1", loop := Option.none,
    model := "\x7b\"title\":\"Team A\"\x7d" }

/-- A `json.loads` for the scenario body (external collaborator, restricted
to the one string the scenario renders). -/
def scenarioJsonLoads : String → List (String × PyVal) := fun s =>
  if s = "\x7b\"title\":\"Team A\"\x7d" then [("title", PyVal.str "Team A")]
  else []

/-- C3: `format_uid` is `"gdbt_"` ++ the hex MD5 digest of the name's UTF-8
bytes, is deterministic, every resource produced by a folder stencil's
`resolve` has `uid = format_uid` of its instance name (the key, which is
`format_name kind name item`), and the folder scenario resolved with name
`"teamA"` and no loop yields one resource named `"folder_teamA"` with uid
`"gdbt_" ++ md5("folder_teamA") = "gdbt_9123169fd2b4d254ad07d69e8e15e063"`. -/
theorem format_uid_contract :
    (∀ name : String, format_uid name = "gdbt_" ++ md5Hex (utf8Bytes name))
    ∧ (∀ a b : String, a = b → format_uid a = format_uid b)
    ∧ (∀ (P : Type) (st : Stencil.Folder P)
        (jsonLoads : String → List (String × PyVal))
        (iter : String → P → List (String × PyVal) → List (String × PyVal) →
          List PyVal)
        (render : String → P → List (String × PyVal) →
          List (String × PyVal) → PyVal → String)
        (name : String) (providers : P)
        (ev : Option (List (String × Evaluation P)))
        (lk : Option (List (String × PyVal)))
        (k : String) (r : Resource.Folder),
        (k, r) ∈ st.toResourceStencil.resolve (st.make_resource jsonLoads)
          iter render name providers ev lk →
        r.uid = format_uid k)
    ∧ scenarioFolderStencil.toResourceStencil.resolve
        (scenarioFolderStencil.make_resource scenarioJsonLoads) iterAB
        renderId "teamA" () Option.none Option.none =
      [("folder_teamA",
        { grafana := "p1", uid := "gdbt_9123169fd2b4d254ad07d69e8e15e063",
          model := [("title", PyVal.str "Team A")] })] := by
  refine ⟨fun _ => rfl, fun a b h => by rw [h], ?_, by rfl⟩
  intro P st jsonLoads iter render name providers ev lk k r hmem
  rw [resolve_eq_foldl] at hmem
  rcases mem_foldl_dictSet _ _ _ hmem with h | h
  · simp at h
  · rcases List.mem_map.mp h with ⟨item, _, he⟩
    injection he with h1 h2
    subst h1
    subst h2
    rfl

/-- C3 witness: the scenario resource's uid is `format_uid "folder_teamA"`;
determinism instantiated at that name. -/
theorem format_uid_contract_witness :
    format_uid "folder_teamA" = format_uid "folder_teamA" ∧
    ({ grafana := "p1", uid := "gdbt_9123169fd2b4d254ad07d69e8e15e063",
       model := [("title", PyVal.str "Team A")] } : Resource.Folder).uid =
      format_uid "folder_teamA" :=
  ⟨format_uid_contract.2.1 "folder_teamA" "folder_teamA" rfl,
   format_uid_contract.2.2.1 Unit scenarioFolderStencil scenarioJsonLoads
     iterAB renderId "teamA" () Option.none Option.none "folder_teamA" _
     (by decide)⟩

/-! ## C4 -/

/-- An evaluation returning a constant value. -/
def evalConst (n : Int) : Evaluation Unit := { value := fun _ => PyVal.int n }

/-- The stencil for the variable-merge example: local evaluations and
lookups `{b: 3, c: 4}`. -/
def mergeStencil : ResourceStencil Unit :=
  { kind := "folder",
    evaluations := some [("b", evalConst 3), ("c", evalConst 4)],
    lookups := some [("b", PyVal.int 3), ("c", PyVal.int 4)],
    provider := "p1", loop := Option.none, model := "" }

/-- C4: `resolve_vars` treats absent (falsy) inherited maps as empty maps
and never fails; it merges local bindings on top of inherited ones so a
same-named local entry overrides the inherited one (for a dictionary `b`
with distinct keys, a key of `b` wins in `dictMerge a b`, and a key absent
from `b` falls back to `a`); it forces every merged evaluation through
`value(providers)` and passes lookups through unchanged; and the example
inherited `{a:1, b:2}` with local `{b:3, c:4}` resolves to `{a:1, b:3, c:4}`
for both evaluations and lookups. -/
theorem resolve_vars_contract :
    (∀ (P : Type) (st : ResourceStencil P) (providers : P),
      st.resolve_vars providers Option.none Option.none =
        st.resolve_vars providers (some []) (some []))
    ∧ (∀ (P : Type) (st : ResourceStencil P) (providers : P)
        (ev : Option (List (String × Evaluation P)))
        (lk : Option (List (String × PyVal))),
        st.resolve_vars providers ev lk =
          ((dictMerge (ev.getD []) (st.evaluations.getD [])).map
             (fun p => (p.1, p.2.value providers)),
           dictMerge (lk.getD []) (st.lookups.getD [])))
    ∧ (∀ (V : Type) (a b : List (String × V)) (k : String),
        ((b.map Prod.fst).Nodup →
          ∀ v, dictGet b k = some v → dictGet (dictMerge a b) k = some v)
        ∧ (dictGet b k = Option.none →
            dictGet (dictMerge a b) k = dictGet a k))
    ∧ mergeStencil.resolve_vars ()
        (some [("a", evalConst 1), ("b", evalConst 2)])
        (some [("a", PyVal.int 1), ("b", PyVal.int 2)]) =
      ([("a", PyVal.int 1), ("b", PyVal.int 3), ("c", PyVal.int 4)],
       [("a", PyVal.int 1), ("b", PyVal.int 3), ("c", PyVal.int 4)]) := by
  refine ⟨fun P st providers => rfl, fun P st providers ev lk => rfl, ?_,
    by rfl⟩
  intro V a b k
  exact ⟨fun hnd v h => dictGet_dictMerge_some a b k v hnd h,
    fun h => dictGet_dictMerge_none a b k h⟩

/-- C4 witness: the local entry `b: 3` overrides the inherited `b: 2` in the
merged dictionary. -/
theorem resolve_vars_contract_witness :
    dictGet (dictMerge [("a", PyVal.int 1), ("b", PyVal.int 2)]
      [("b", PyVal.int 3), ("c", PyVal.int 4)]) "b" = some (PyVal.int 3) :=
  (resolve_vars_contract.2.2.1 PyVal
    [("a", PyVal.int 1), ("b", PyVal.int 2)]
    [("b", PyVal.int 3), ("c", PyVal.int 4)] "b").1 (by decide)
    (PyVal.int 3) (by decide)

/-! ## Concrete remote fixture -/

/-- A concrete grafana client: one folder `"fuid"` with numeric id 7, one
dashboard `"duid"` (with the volatile keys present) inside it, one dashboard
`"nover"` whose model lacks the `"version"` key; everything else answers
with a 404 client error; creating the existing folder answers 412. -/
def testClient : GrafanaClient :=
  { get_folder := fun uid =>
      if uid = "fuid" then
        Except.ok [("title", PyVal.str "Team A"), ("id", PyVal.int 7)]
      else Except.error ⟨true, 404, "folder not found"⟩,
    create_folder := fun _ uid =>
      if uid = "fuid" then
        Except.error ⟨false, 412, "precondition failed"⟩
      else Except.ok PyVal.none,
    update_folder := fun _ _ _ => Except.ok PyVal.none,
    delete_folder := fun uid =>
      if uid = "fuid" then Except.ok PyVal.none
      else Except.error ⟨true, 404, "folder not found"⟩,
    get_folder_by_id := fun id =>
      if id = PyVal.int 7 then
        Except.ok ⟨PyVal.str "Team A", "fuid"⟩
      else Except.error ⟨true, 404, "folder not found"⟩,
    get_dashboard := fun uid =>
      if uid = "duid" then
        Except.ok ⟨[("id", PyVal.int 5), ("uid", PyVal.str "duid"),
          ("version", PyVal.int 3), ("title", PyVal.str "Dash")],
          PyVal.int 7⟩
      else if uid = "nover" then
        Except.ok ⟨[("id", PyVal.int 5), ("title", PyVal.str "Dash")],
          PyVal.int 7⟩
      else Except.error ⟨true, 404, "dashboard not found"⟩,
    update_dashboard := fun _ => Except.ok PyVal.none,
    delete_dashboard := fun uid =>
      if uid = "duid" then Except.ok PyVal.none
      else Except.error ⟨true, 404, "dashboard not found"⟩ }

/-- The provider registry fixture. -/
def testProviders : List (String × Provider) :=
  [("g", { client := testClient })]

/-! ## C5 -/

/-- C5: every dashboard fetched via `Dashboard.get` has the keys `id`,
`uid` and `version` removed from the fetched model before the resource is
constructed (`serialize` therefore never contains them inside `model`), and
the `folder` field is the uid of the folder obtained by reverse lookup of
the remote numeric `folderId`, never the numeric id itself. -/
theorem dashboard_get_contract (grafana uid : String)
    (providers : List (String × Provider)) (d : Resource.Dashboard)
    (h : Resource.Dashboard.get grafana uid providers = Except.ok d) :
    dictGet d.model "id" = Option.none ∧
    dictGet d.model "uid" = Option.none ∧
    dictGet d.model "version" = Option.none ∧
    dictGet (Resource.Dashboard.serialize d providers) "model" =
      some (Resource.SerVal.dict d.model) ∧
    ∃ p resp fres,
      Resource.client grafana providers = Except.ok p ∧
      p.client.get_dashboard uid = Except.ok resp ∧
      Resource.Folder.get_by_id grafana resp.folderId providers =
        Except.ok fres ∧
      d.folder = fres.uid ∧
      d.model =
        dictPop (dictPop (dictPop resp.dashboard "id") "uid") "version" := by
  unfold Resource.Dashboard.get at h
  cases hc : Resource.client grafana providers with
  | error e => rw [hc] at h; simp [Bind.bind, Except.bind] at h
  | ok p =>
    rw [hc] at h
    simp only [Bind.bind, Except.bind] at h
    cases hresp : p.client.get_dashboard uid with
    | error exc => rw [hresp] at h; simp at h
    | ok resp =>
      rw [hresp] at h
      simp only [] at h
      cases hf : Resource.Folder.get_by_id grafana resp.folderId providers
        with
      | error e => rw [hf] at h; simp [Bind.bind, Except.bind] at h
      | ok fres =>
        rw [hf] at h
        simp only [Bind.bind, Except.bind, Except.ok.injEq] at h
        subst h
        refine ⟨?_, ?_, ?_, rfl, p, resp, fres, rfl, hresp, hf, rfl, rfl⟩
        · show dictGet (dictPop (dictPop (dictPop resp.dashboard "id")
            "uid") "version") "id" = Option.none
          rw [dictGet_dictPop_ne _ _ _ (by decide),
            dictGet_dictPop_ne _ _ _ (by decide), dictGet_dictPop_self]
        · show dictGet (dictPop (dictPop (dictPop resp.dashboard "id")
            "uid") "version") "uid" = Option.none
          rw [dictGet_dictPop_ne _ _ _ (by decide),
            dictGet_dictPop_self]
        · show dictGet (dictPop (dictPop (dictPop resp.dashboard "id")
            "uid") "version") "version" = Option.none
          rw [dictGet_dictPop_self]

/-- C5 witness: fetching the concrete dashboard `"duid"` yields a model
with the volatile keys stripped and the folder expressed as `"fuid"`. -/
theorem dashboard_get_contract_witness :
    dictGet ([("title", PyVal.str "Dash")] : List (String × PyVal)) "id" =
      Option.none ∧
    dictGet ([("title", PyVal.str "Dash")] : List (String × PyVal)) "uid" =
      Option.none ∧
    dictGet ([("title", PyVal.str "Dash")] : List (String × PyVal))
      "version" = Option.none ∧
    dictGet (Resource.Dashboard.serialize
      { grafana := "g", uid := "duid",
        model := [("title", PyVal.str "Dash")], folder := "fuid" }
      testProviders) "model" =
      some (Resource.SerVal.dict [("title", PyVal.str "Dash")]) ∧
    ∃ p resp fres,
      Resource.client "g" testProviders = Except.ok p ∧
      p.client.get_dashboard "duid" = Except.ok resp ∧
      Resource.Folder.get_by_id "g" resp.folderId testProviders =
        Except.ok fres ∧
      ("fuid" : String) = fres.uid ∧
      ([("title", PyVal.str "Dash")] : List (String × PyVal)) =
        dictPop (dictPop (dictPop resp.dashboard "id") "uid") "version" :=
  dashboard_get_contract "g" "duid" testProviders
    { grafana := "g", uid := "duid", model := [("title", PyVal.str "Dash")],
      folder := "fuid" } (by rfl)

/-! ## C6 -/

/-- C6: a "not found" response (a `GrafanaClientError` with status 404) is
consumed at exactly `exists` (returns false) and `delete` (returns
normally), for both kinds; `get` surfaces every remote failure, not-found
included, as a fatal `GrafanaError` (likewise `Folder.update`, a non-412
`Folder.create` failure, and `Dashboard.id`/`version`); and `exists`
returns true exactly when the remote read succeeds. -/
theorem not_found_policy :
    (∀ (g u : String) (ps : List (String × Provider)) (p : Provider)
        (exc : GrafanaExc),
      Resource.client g ps = Except.ok p →
      p.client.get_folder u = Except.error exc →
      (Resource.Folder.exists g u ps =
        if exc.isClientError && exc.status_code == 404 then Except.ok false
        else Except.error (GdbtError.grafanaError exc.message))
      ∧ Resource.Folder.get g u ps =
          Except.error (GdbtError.grafanaError exc.message))
    ∧ (∀ (g u : String) (ps : List (String × Provider)) (p : Provider),
        Resource.client g ps = Except.ok p →
        (Resource.Folder.exists g u ps = Except.ok true ↔
          ∃ data, p.client.get_folder u = Except.ok data))
    ∧ (∀ (f : Resource.Folder) (ps : List (String × Provider))
          (p : Provider) (exc : GrafanaExc),
        Resource.client f.grafana ps = Except.ok p →
        p.client.delete_folder f.uid = Except.error exc →
        Resource.Folder.delete f ps =
          if exc.isClientError && exc.status_code == 404 then Except.ok ()
          else Except.error (GdbtError.grafanaError exc.message))
    ∧ (∀ (g u : String) (ps : List (String × Provider)) (p : Provider)
          (exc : GrafanaExc),
        Resource.client g ps = Except.ok p →
        p.client.get_dashboard u = Except.error exc →
        (Resource.Dashboard.exists g u ps =
          if exc.isClientError && exc.status_code == 404 then
            Except.ok false
          else Except.error (GdbtError.grafanaError exc.message))
        ∧ Resource.Dashboard.get g u ps =
            Except.error (GdbtError.grafanaError exc.message))
    ∧ (∀ (g u : String) (ps : List (String × Provider)) (p : Provider),
        Resource.client g ps = Except.ok p →
        (Resource.Dashboard.exists g u ps = Except.ok true ↔
          ∃ resp, p.client.get_dashboard u = Except.ok resp))
    ∧ (∀ (d : Resource.Dashboard) (ps : List (String × Provider))
          (p : Provider) (exc : GrafanaExc),
        Resource.client d.grafana ps = Except.ok p →
        p.client.delete_dashboard d.uid = Except.error exc →
        Resource.Dashboard.delete d ps =
          if exc.isClientError && exc.status_code == 404 then Except.ok ()
          else Except.error (GdbtError.grafanaError exc.message))
    ∧ (∀ (g u : String) (model : List (String × PyVal))
          (ps : List (String × Provider)) (p : Provider) (title : PyVal)
          (exc : GrafanaExc),
        dictGet model "title" = some title →
        Resource.client g ps = Except.ok p →
        p.client.create_folder title u = Except.error exc →
        exc.status_code ≠ 412 →
        Resource.Folder.create g u model ps =
          Except.error (GdbtError.grafanaError exc.message))
    ∧ (∀ (f : Resource.Folder) (model : List (String × PyVal))
          (ps : List (String × Provider)) (p : Provider) (title : PyVal)
          (exc : GrafanaExc),
        dictGet model "title" = some title →
        Resource.client f.grafana ps = Except.ok p →
        p.client.update_folder f.uid title true = Except.error exc →
        Resource.Folder.update f model ps =
          Except.error (GdbtError.grafanaError exc.message))
    ∧ (∀ (d : Resource.Dashboard) (ps : List (String × Provider))
          (p : Provider) (exc : GrafanaExc),
        Resource.client d.grafana ps = Except.ok p →
        p.client.get_dashboard d.uid = Except.error exc →
        Resource.Dashboard.id d ps =
            Except.error (GdbtError.grafanaError exc.message)
        ∧ Resource.Dashboard.version d ps =
            Except.error (GdbtError.grafanaError exc.message)) := by
  refine ⟨?_, ?_, ?_, ?_, ?_, ?_, ?_, ?_, ?_⟩
  · intro g u ps p exc hp hf
    constructor
    · unfold Resource.Folder.exists
      simp only [hp, hf, Bind.bind, Except.bind]
    · unfold Resource.Folder.get
      simp only [hp, hf, Bind.bind, Except.bind]
  · intro g u ps p hp
    unfold Resource.Folder.exists
    simp only [hp, Bind.bind, Except.bind]
    cases hf : p.client.get_folder u with
    | error exc =>
      constructor
      · intro h
        by_cases hc : (exc.isClientError && exc.status_code == 404) = true <;>
          simp [hc] at h
      · rintro ⟨data, hd⟩
        simp at hd
    | ok data =>
      exact ⟨fun _ => ⟨data, rfl⟩, fun _ => rfl⟩
  · intro f ps p exc hp hd
    unfold Resource.Folder.delete
    simp only [hp, hd, Bind.bind, Except.bind]
  · intro g u ps p exc hp hf
    constructor
    · unfold Resource.Dashboard.exists
      simp only [hp, hf, Bind.bind, Except.bind]
    · unfold Resource.Dashboard.get
      simp only [hp, hf, Bind.bind, Except.bind]
  · intro g u ps p hp
    unfold Resource.Dashboard.exists
    simp only [hp, Bind.bind, Except.bind]
    cases hf : p.client.get_dashboard u with
    | error exc =>
      constructor
      · intro h
        by_cases hc : (exc.isClientError && exc.status_code == 404) = true <;>
          simp [hc] at h
      · rintro ⟨resp, hd⟩
        simp at hd
    | ok resp =>
      exact ⟨fun _ => ⟨resp, rfl⟩, fun _ => rfl⟩
  · intro d ps p exc hp hd
    unfold Resource.Dashboard.delete
    simp only [hp, hd, Bind.bind, Except.bind]
  · intro g u model ps p title exc ht hp hc hne
    unfold Resource.Folder.create
    simp only [ht, hp, hc]
    rw [if_pos hne]
  · intro f model ps p title exc ht hp hu
    unfold Resource.Folder.update
    simp only [ht, hp, hu, Bind.bind, Except.bind]
  · intro d ps p exc hp hd
    constructor
    · unfold Resource.Dashboard.id
      simp only [hp, hd, Bind.bind, Except.bind]
    · unfold Resource.Dashboard.version
      simp only [hp, hd, Bind.bind, Except.bind]

/-- C6 witness: against the concrete fixture, `exists` is false and
`delete` succeeds on the missing uid, `exists` is true on the present
folder, and `get`/`id` surface the not-found as a fatal error. -/
theorem not_found_policy_witness :
    Resource.Folder.exists "g" "missing" testProviders = Except.ok false ∧
    Resource.Folder.get "g" "missing" testProviders =
      Except.error (GdbtError.grafanaError "folder not found") ∧
    Resource.Folder.exists "g" "fuid" testProviders = Except.ok true ∧
    Resource.Folder.delete { grafana := "g", uid := "missing", model := [] }
      testProviders = Except.ok () ∧
    Resource.Dashboard.exists "g" "missing" testProviders =
      Except.ok false ∧
    Resource.Dashboard.get "g" "missing" testProviders =
      Except.error (GdbtError.grafanaError "dashboard not found") ∧
    Resource.Dashboard.delete ⟨"g", "missing", [], "fuid"⟩ testProviders =
      Except.ok () ∧
    Resource.Dashboard.version ⟨"g", "missing", [], "fuid"⟩ testProviders =
      Except.error (GdbtError.grafanaError "dashboard not found") := by
  refine ⟨?_, ?_, ?_, ?_, ?_, ?_, ?_, ?_⟩
  · exact (not_found_policy.1 "g" "missing" testProviders _ _ rfl rfl).1
  · exact (not_found_policy.1 "g" "missing" testProviders _ _ rfl rfl).2
  · exact (not_found_policy.2.1 "g" "fuid" testProviders
      { client := testClient } rfl).mpr ⟨_, rfl⟩
  · exact not_found_policy.2.2.1
      { grafana := "g", uid := "missing", model := [] } testProviders _ _
      rfl rfl
  · exact (not_found_policy.2.2.2.1 "g" "missing" testProviders _ _
      rfl rfl).1
  · exact (not_found_policy.2.2.2.1 "g" "missing" testProviders _ _
      rfl rfl).2
  · exact not_found_policy.2.2.2.2.2.1 ⟨"g", "missing", [], "fuid"⟩
      testProviders _ _ rfl rfl
  · exact (not_found_policy.2.2.2.2.2.2.2.2 ⟨"g", "missing", [], "fuid"⟩
      testProviders _ _ rfl rfl).2

/-! ## C7 -/

/-- C7: `Folder.create` raises a `DataError` when the body lacks a
`"title"` key; a remote 412 ("precondition failed") is swallowed, so
creating a folder whose uid already exists completes by re-reading via
`get`; any other remote failure is fatal; and on a successful remote call
it equally finishes by re-reading via `get` and returning that canonical
state. -/
theorem folder_create_contract (g u : String)
    (model : List (String × PyVal)) (ps : List (String × Provider)) :
    (dictGet model "title" = Option.none →
      Resource.Folder.create g u model ps =
        Except.error
          (GdbtError.dataError "Folder model missing 'title' key"))
    ∧ (∀ (p : Provider) (title : PyVal) (exc : GrafanaExc),
        dictGet model "title" = some title →
        Resource.client g ps = Except.ok p →
        p.client.create_folder title u = Except.error exc →
        (exc.status_code = 412 →
          Resource.Folder.create g u model ps = Resource.Folder.get g u ps)
        ∧ (exc.status_code ≠ 412 →
          Resource.Folder.create g u model ps =
            Except.error (GdbtError.grafanaError exc.message)))
    ∧ (∀ (p : Provider) (title r : PyVal),
        dictGet model "title" = some title →
        Resource.client g ps = Except.ok p →
        p.client.create_folder title u = Except.ok r →
        Resource.Folder.create g u model ps =
          Resource.Folder.get g u ps) := by
  refine ⟨?_, ?_, ?_⟩
  · intro h
    unfold Resource.Folder.create
    simp only [h]
  · intro p title exc ht hp hc
    constructor
    · intro h412
      unfold Resource.Folder.create
      simp only [ht, hp, hc]
      rw [if_neg (fun hn => hn h412)]
    · intro hne
      unfold Resource.Folder.create
      simp only [ht, hp, hc]
      rw [if_pos hne]
  · intro p title r ht hp hc
    unfold Resource.Folder.create
    simp only [ht, hp, hc]

/-- C7 witness: creating the already-existing folder `"fuid"` (remote
answers 412) completes and returns the canonical existing folder; a body
without `"title"` is a `DataError`. -/
theorem folder_create_contract_witness :
    Resource.Folder.create "g" "fuid" [("title", PyVal.str "Team A")]
      testProviders = Resource.Folder.get "g" "fuid" testProviders ∧
    Resource.Folder.create "g" "fuid" [("title", PyVal.str "Team A")]
      testProviders =
      Except.ok { grafana := "g", uid := "fuid",
                  model := [("title", PyVal.str "Team A")] } ∧
    Resource.Folder.create "g" "u2" [] testProviders =
      Except.error
        (GdbtError.dataError "Folder model missing 'title' key") := by
  refine ⟨?_, ?_, ?_⟩
  · exact ((folder_create_contract "g" "fuid"
      [("title", PyVal.str "Team A")] testProviders).2.1 _ _ _ rfl rfl
      rfl).1 rfl
  · exact (((folder_create_contract "g" "fuid"
      [("title", PyVal.str "Team A")] testProviders).2.1 _ _ _ rfl rfl
      rfl).1 rfl).trans (by rfl)
  · exact (folder_create_contract "g" "u2" [] testProviders).1 rfl

/-! ## C8 -/

/-- The `version_new` computation of `Dashboard.update` on a successfully
read version value: `version + 1`, with the `TypeError` of a non-int
caught and turned into 1 (Python `bool` is an int, so `True + 1 = 2`). -/
def pyVersionSucc : PyVal → Int
  | PyVal.int n => n + 1
  | PyVal.bool b => (if b then 1 else 0) + 1
  | _ => 1

/-- C8 (amended): `Dashboard.update` reads the current remote version and
increments it, treating a non-numeric version (e.g. `null`) as version 1;
a remote model that lacks the `"version"` key makes the read raise an
uncaught `KeyError` instead of being treated as version 1; on success the
body is submitted with `id`, `uid` and `version` set, the folder reference
resolved to the folder's numeric remote id, and the `overwrite` flag set;
any remote failure is surfaced as a fatal `GrafanaError`. -/
theorem dashboard_update_contract (self : Resource.Dashboard)
    (model : List (String × PyVal)) (ps : List (String × Provider))
    (p : Provider) (hp : Resource.client self.grafana ps = Except.ok p) :
    (∀ exc, p.client.get_dashboard self.uid = Except.error exc →
      Resource.Dashboard.update self model ps =
        Except.error (GdbtError.grafanaError exc.message))
    ∧ (∀ resp, p.client.get_dashboard self.uid = Except.ok resp →
        dictGet resp.dashboard "version" = Option.none →
        Resource.Dashboard.update self model ps =
          Except.error (GdbtError.keyError "version"))
    ∧ (∀ resp v idV fres fid r,
        p.client.get_dashboard self.uid = Except.ok resp →
        dictGet resp.dashboard "version" = some v →
        dictGet resp.dashboard "id" = some idV →
        Resource.Folder.get self.grafana self.folder ps = Except.ok fres →
        Resource.Folder.id fres ps = Except.ok fid →
        p.client.update_dashboard
          ⟨dictMerge model [("id", idV), ("uid", PyVal.str self.uid),
            ("version", PyVal.int (pyVersionSucc v))], fid, true⟩ =
          Except.ok r →
        Resource.Dashboard.update self model ps =
          Except.ok (dictMerge model [("id", idV),
            ("uid", PyVal.str self.uid),
            ("version", PyVal.int (pyVersionSucc v))]))
    ∧ (∀ resp v idV fres fid exc,
        p.client.get_dashboard self.uid = Except.ok resp →
        dictGet resp.dashboard "version" = some v →
        dictGet resp.dashboard "id" = some idV →
        Resource.Folder.get self.grafana self.folder ps = Except.ok fres →
        Resource.Folder.id fres ps = Except.ok fid →
        p.client.update_dashboard
          ⟨dictMerge model [("id", idV), ("uid", PyVal.str self.uid),
            ("version", PyVal.int (pyVersionSucc v))], fid, true⟩ =
          Except.error exc →
        Resource.Dashboard.update self model ps =
          Except.error (GdbtError.grafanaError exc.message)) := by
  refine ⟨?_, ?_, ?_, ?_⟩
  · intro exc hresp
    have hv : Resource.Dashboard.version self ps =
        Except.error (GdbtError.grafanaError exc.message) := by
      unfold Resource.Dashboard.version
      simp only [hp, hresp, Bind.bind, Except.bind]
    unfold Resource.Dashboard.update
    simp only [hv, Bind.bind, Except.bind]
  · intro resp hresp hdv
    have hv : Resource.Dashboard.version self ps =
        Except.error (GdbtError.keyError "version") := by
      unfold Resource.Dashboard.version
      simp only [hp, hresp, Bind.bind, Except.bind, pyGet, hdv]
    unfold Resource.Dashboard.update
    simp only [hv, Bind.bind, Except.bind]
  · intro resp v idV fres fid r hresp hdv hdid hfres hfid hupd
    have hv : Resource.Dashboard.version self ps = Except.ok v := by
      unfold Resource.Dashboard.version
      simp only [hp, hresp, Bind.bind, Except.bind, pyGet, hdv]
    have hid : Resource.Dashboard.id self ps = Except.ok idV := by
      unfold Resource.Dashboard.id
      simp only [hp, hresp, Bind.bind, Except.bind, pyGet, hdid]
    unfold Resource.Dashboard.update
    simp only [pyVersionSucc] at hupd
    cases v <;>
      simp only [hv, hid, hfres, hfid, hp, hupd, pyVersionSucc, Bind.bind,
        Except.bind]
  · intro resp v idV fres fid exc hresp hdv hdid hfres hfid hupd
    have hv : Resource.Dashboard.version self ps = Except.ok v := by
      unfold Resource.Dashboard.version
      simp only [hp, hresp, Bind.bind, Except.bind, pyGet, hdv]
    have hid : Resource.Dashboard.id self ps = Except.ok idV := by
      unfold Resource.Dashboard.id
      simp only [hp, hresp, Bind.bind, Except.bind, pyGet, hdid]
    unfold Resource.Dashboard.update
    simp only [pyVersionSucc] at hupd
    cases v <;>
      simp only [hv, hid, hfres, hfid, hp, hupd, pyVersionSucc, Bind.bind,
        Except.bind]

/-- C8 witness: updating the concrete dashboard `"duid"` (remote version 3)
submits and returns the caller model with `id = 5`, `uid = "duid"`,
`version = 4`. -/
theorem dashboard_update_contract_witness :
    Resource.Dashboard.update ⟨"g", "duid", [], "fuid"⟩
      [("title", PyVal.str "T2")] testProviders =
      Except.ok [("title", PyVal.str "T2"), ("id", PyVal.int 5),
        ("uid", PyVal.str "duid"), ("version", PyVal.int 4)] :=
  ((dashboard_update_contract ⟨"g", "duid", [], "fuid"⟩
    [("title", PyVal.str "T2")] testProviders ⟨testClient⟩ rfl).2.2.1
    _ _ _ _ _ _ rfl rfl rfl rfl rfl rfl).trans (by rfl)

/-- C8 counterexample: the remote model of dashboard `"nover"` lacks the
`"version"` key; `update` then raises an uncaught `KeyError` instead of
treating the missing version as version 1 and completing the write. -/
theorem dashboard_update_counterexample :
    Resource.Dashboard.update ⟨"g", "nover", [], "fuid"⟩
      [("title", PyVal.str "T2")] testProviders =
      Except.error (GdbtError.keyError "version") := by rfl

/-! ## C9 -/

/-- C9: the Dashboard stencil's `make_resource` strips any `"id"` field
from the parsed body payload and resolves the stencil's folder reference to
`format_uid` of the prefixed folder name, prepending `"folder_"` exactly
when the reference does not already start with it, so `"teamA"` and
`"folder_teamA"` both yield the folder uid `format_uid "folder_teamA" =
"gdbt_" ++ md5("folder_teamA")`. -/
theorem dashboard_make_resource_contract {P : Type}
    (st : Stencil.Dashboard P)
    (jsonLoads : String → List (String × PyVal))
    (grafana uid model : String) (providers : P) :
    (st.make_resource jsonLoads grafana uid model providers).model =
      dictPop (jsonLoads model) "id"
    ∧ dictGet (st.make_resource jsonLoads grafana uid model providers).model
        "id" = Option.none
    ∧ (st.make_resource jsonLoads grafana uid model providers).folder =
        format_uid (if strStartsWith st.folder "folder_" then st.folder
          else "folder_" ++ st.folder)
    ∧ (st.folder = "teamA" →
        (st.make_resource jsonLoads grafana uid model providers).folder =
          format_uid "folder_teamA")
    ∧ (st.folder = "folder_teamA" →
        (st.make_resource jsonLoads grafana uid model providers).folder =
          format_uid "folder_teamA")
    ∧ format_uid "folder_teamA" =
        "gdbt_9123169fd2b4d254ad07d69e8e15e063" := by
  refine ⟨rfl, dictGet_dictPop_self _ _, rfl, ?_, ?_, by rfl⟩
  · intro h
    show format_uid (if strStartsWith st.folder "folder_" then st.folder
      else "folder_" ++ st.folder) = _
    rw [h]
    rfl
  · intro h
    show format_uid (if strStartsWith st.folder "folder_" then st.folder
      else "folder_" ++ st.folder) = _
    rw [h]
    rfl

/-- The scenario dashboard stencil referencing `folder: "teamA"`. -/
def scenarioDashStencil : Stencil.Dashboard Unit :=
  { kind := "dashboard", evaluations := Option.none, lookups := Option.none,
    provider := "p1", loop := Option.none, model := "",
    folder := "teamA" }

/-- C9 witness: the `"teamA"` reference resolves to the prefixed folder
uid. -/
theorem dashboard_make_resource_contract_witness :
    (scenarioDashStencil.make_resource scenarioJsonLoads "p1" "u" ""
      ()).folder = format_uid "folder_teamA" :=
  (dashboard_make_resource_contract scenarioDashStencil scenarioJsonLoads
    "p1" "u" "" ()).2.2.2.1 rfl

/-! ## C10 -/

/-- Lookups in a dictionary after the three-key `id`/`uid`/`version`
update. -/
theorem dictGet_merge_idUidVersion {V : Type} (m : List (String × V))
    (v1 v2 v3 : V) :
    dictGet (dictMerge m [("id", v1), ("uid", v2), ("version", v3)]) "id" =
      some v1 ∧
    dictGet (dictMerge m [("id", v1), ("uid", v2), ("version", v3)])
      "uid" = some v2 ∧
    dictGet (dictMerge m [("id", v1), ("uid", v2), ("version", v3)])
      "version" = some v3 := by
  have he : dictMerge m [("id", v1), ("uid", v2), ("version", v3)] =
      dictSet (dictSet (dictSet m "id" v1) "uid" v2) "version" v3 := rfl
  refine ⟨?_, ?_, ?_⟩
  · rw [he, dictGet_dictSet_ne _ _ _ _ (by decide),
      dictGet_dictSet_ne _ _ _ _ (by decide), dictGet_dictSet_self]
  · rw [he, dictGet_dictSet_ne _ _ _ _ (by decide), dictGet_dictSet_self]
  · rw [he, dictGet_dictSet_self]

/-- C10: `Dashboard.create` and `Dashboard.update` write through the
caller-supplied model dictionary (the in-place `model.update(...)` is
modelled by the returned post-state): whenever either call completes, the
caller's dictionary is the original with the keys `id`, `uid` and `version`
inserted or overwritten, and exactly that dictionary was submitted to the
remote service (with the `overwrite` flag). -/
theorem dashboard_model_mutation (g u folderRef : String)
    (model : List (String × PyVal)) (ps : List (String × Provider))
    (self : Resource.Dashboard) :
    (∀ d m', Resource.Dashboard.create g u model folderRef ps =
        Except.ok (d, m') →
      m' = dictMerge model [("id", PyVal.none), ("uid", PyVal.str u),
        ("version", PyVal.int 1)]
      ∧ dictGet m' "id" = some PyVal.none
      ∧ dictGet m' "uid" = some (PyVal.str u)
      ∧ dictGet m' "version" = some (PyVal.int 1)
      ∧ ∃ p fid r, Resource.client g ps = Except.ok p ∧
          p.client.update_dashboard ⟨m', fid, true⟩ = Except.ok r)
    ∧ (∀ m', Resource.Dashboard.update self model ps = Except.ok m' →
        ∃ idV vN, m' = dictMerge model [("id", idV),
            ("uid", PyVal.str self.uid), ("version", PyVal.int vN)]
          ∧ dictGet m' "id" = some idV
          ∧ dictGet m' "uid" = some (PyVal.str self.uid)
          ∧ dictGet m' "version" = some (PyVal.int vN)
          ∧ ∃ p fid r, Resource.client self.grafana ps = Except.ok p ∧
              p.client.update_dashboard ⟨m', fid, true⟩ = Except.ok r) := by
  constructor
  · intro d m' h
    unfold Resource.Dashboard.create at h
    cases hfres : Resource.Folder.get g folderRef ps with
    | error e => rw [hfres] at h; simp [Bind.bind, Except.bind] at h
    | ok fres =>
      rw [hfres] at h
      simp only [Bind.bind, Except.bind] at h
      cases hfid : Resource.Folder.id fres ps with
      | error e => rw [hfid] at h; simp at h
      | ok fid =>
        rw [hfid] at h
        simp only [] at h
        cases hp : Resource.client g ps with
        | error e => rw [hp] at h; simp at h
        | ok p =>
          rw [hp] at h
          simp only [] at h
          cases hupd : p.client.update_dashboard
              ⟨dictMerge model [("id", PyVal.none), ("uid", PyVal.str u),
                ("version", PyVal.int 1)], fid, true⟩ with
          | error exc => rw [hupd] at h; simp at h
          | ok r =>
            rw [hupd] at h
            simp only [] at h
            cases hget : Resource.Dashboard.get g u ps with
            | error e => rw [hget] at h; simp [Bind.bind, Except.bind] at h
            | ok d2 =>
              rw [hget] at h
              simp only [Bind.bind, Except.bind, Except.ok.injEq,
                Prod.mk.injEq] at h
              obtain ⟨-, hm⟩ := h
              subst hm
              exact ⟨rfl, (dictGet_merge_idUidVersion model _ _ _).1,
                (dictGet_merge_idUidVersion model _ _ _).2.1,
                (dictGet_merge_idUidVersion model _ _ _).2.2,
                p, fid, r, rfl, hupd⟩
  · intro m' h
    unfold Resource.Dashboard.update at h
    cases hv : Resource.Dashboard.version self ps with
    | error e => rw [hv] at h; simp [Bind.bind, Except.bind] at h
    | ok v =>
      rw [hv] at h
      cases v <;>
      · simp only [Bind.bind, Except.bind] at h
        split at h
        · simp at h
        · rename_i idV hid
          split at h
          · simp at h
          · rename_i fres hfres
            split at h
            · simp at h
            · rename_i fid hfid
              split at h
              · simp at h
              · rename_i p hp
                split at h
                · simp at h
                · rename_i r hupd
                  injection h with hm
                  subst hm
                  exact ⟨idV, _, rfl,
                    (dictGet_merge_idUidVersion model _ _ _).1,
                    (dictGet_merge_idUidVersion model _ _ _).2.1,
                    (dictGet_merge_idUidVersion model _ _ _).2.2,
                    p, fid, r, hp, hupd⟩

/-- C10 witness: the concrete update call returns the caller model with the
three remote-oriented keys written through. -/
theorem dashboard_model_mutation_witness :
    ∃ idV vN,
      ([("title", PyVal.str "T2"), ("id", PyVal.int 5),
        ("uid", PyVal.str "duid"), ("version", PyVal.int 4)] :
          List (String × PyVal)) =
        dictMerge [("title", PyVal.str "T2")] [("id", idV),
          ("uid", PyVal.str "duid"), ("version", PyVal.int vN)]
      ∧ dictGet [("title", PyVal.str "T2"), ("id", PyVal.int 5),
          ("uid", PyVal.str "duid"), ("version", PyVal.int 4)] "id" =
          some idV
      ∧ dictGet [("title", PyVal.str "T2"), ("id", PyVal.int 5),
          ("uid", PyVal.str "duid"), ("version", PyVal.int 4)] "uid" =
          some (PyVal.str "duid")
      ∧ dictGet [("title", PyVal.str "T2"), ("id", PyVal.int 5),
          ("uid", PyVal.str "duid"), ("version", PyVal.int 4)] "version" =
          some (PyVal.int vN)
      ∧ ∃ p fid r, Resource.client "g" testProviders = Except.ok p ∧
          p.client.update_dashboard ⟨[("title", PyVal.str "T2"),
            ("id", PyVal.int 5), ("uid", PyVal.str "duid"),
            ("version", PyVal.int 4)], fid, true⟩ = Except.ok r :=
  (dashboard_model_mutation "g" "u" "f" [("title", PyVal.str "T2")]
    testProviders ⟨"g", "duid", [], "fuid"⟩).2
    [("title", PyVal.str "T2"), ("id", PyVal.int 5),
     ("uid", PyVal.str "duid"), ("version", PyVal.int 4)] (by rfl)

end Gdbt
